import Mathlib

/-!
Verification of the `ekairos` thread orchestration engine.

The definitions below are a shallow embedding, in Lean, of the TypeScript
source of the repository:

* `thread.contract.ts` — the Transition Contract tables, the `can*Transition`
  and `assert*Transition` helpers and `assertThreadPartKey`;
* `thread.stream.ts` — the stream event codec (`parseThreadStreamEvent`,
  `assertThreadStreamTransitions`, `validateThreadStreamTimeline`);
* the AI-SDK chunk mapper (`mapAiSdkChunkType`) and the Codex chunk mapper
  (`mapCodexChunkType` in `codex.reactor.ts`);
* the action execution subsystem and the loop controller of `Thread.runLoop`.

TypeScript exceptions are embedded as `Except String`; JavaScript record
values are embedded as the inductive `JVal`.
-/

namespace Ekairos

/-! ### Transition Contract (`thread.contract.ts`) -/

/-- One legal `(from, to)` status pair, as in `type Transition` of
`thread.contract.ts` (the `from` field is renamed `fromState` because `from`
is a Lean keyword). -/
structure Transition where
  fromState : String
  toState : String
deriving DecidableEq, Repr

/-- `THREAD_THREAD_TRANSITIONS` from `thread.contract.ts`. -/
def THREAD_THREAD_TRANSITIONS : List Transition :=
  [⟨"idle", "streaming"⟩, ⟨"streaming", "idle"⟩]

/-- `THREAD_CONTEXT_TRANSITIONS` from `thread.contract.ts`. -/
def THREAD_CONTEXT_TRANSITIONS : List Transition :=
  [⟨"open", "closed"⟩, ⟨"closed", "open"⟩]

/-- `THREAD_EXECUTION_TRANSITIONS` from `thread.contract.ts`. -/
def THREAD_EXECUTION_TRANSITIONS : List Transition :=
  [⟨"executing", "completed"⟩, ⟨"executing", "failed"⟩]

/-- `THREAD_STEP_TRANSITIONS` from `thread.contract.ts`. -/
def THREAD_STEP_TRANSITIONS : List Transition :=
  [⟨"running", "completed"⟩, ⟨"running", "failed"⟩]

/-- `THREAD_ITEM_TRANSITIONS` from `thread.contract.ts`. -/
def THREAD_ITEM_TRANSITIONS : List Transition :=
  [⟨"stored", "pending"⟩, ⟨"stored", "completed"⟩, ⟨"pending", "completed"⟩]

/-- `canTransition` from `thread.contract.ts`:
`transitions.some((t) => t.from === from && t.to === to)`. -/
def canTransition (transitions : List Transition) (f t : String) : Bool :=
  transitions.any (fun tr => tr.fromState == f && tr.toState == t)

/-- The message produced by `assertTransition` in `thread.contract.ts`:
`` `Invalid ${entity} transition: ${from} -> ${to}` ``. -/
def transitionErrorMessage (entity f t : String) : String :=
  s!"Invalid {entity} transition: {f} -> {t}"

/-- `assertTransition` from `thread.contract.ts`: throws
`Invalid ${entity} transition: ${from} -> ${to}` when the pair is not in the
table. -/
def assertTransition (transitions : List Transition) (f t entity : String) :
    Except String Unit :=
  if !canTransition transitions f t then
    .error (transitionErrorMessage entity f t)
  else
    .ok ()

/-- `canThreadTransition` from `thread.contract.ts`. -/
def canThreadTransition (f t : String) : Bool :=
  canTransition THREAD_THREAD_TRANSITIONS f t

/-- `canContextTransition` from `thread.contract.ts`. -/
def canContextTransition (f t : String) : Bool :=
  canTransition THREAD_CONTEXT_TRANSITIONS f t

/-- `canExecutionTransition` from `thread.contract.ts`. -/
def canExecutionTransition (f t : String) : Bool :=
  canTransition THREAD_EXECUTION_TRANSITIONS f t

/-- `canStepTransition` from `thread.contract.ts`. -/
def canStepTransition (f t : String) : Bool :=
  canTransition THREAD_STEP_TRANSITIONS f t

/-- `canItemTransition` from `thread.contract.ts`. -/
def canItemTransition (f t : String) : Bool :=
  canTransition THREAD_ITEM_TRANSITIONS f t

/-- `assertThreadTransition` from `thread.contract.ts`. -/
def assertThreadTransition (f t : String) : Except String Unit :=
  assertTransition THREAD_THREAD_TRANSITIONS f t "thread.status"

/-- `assertContextTransition` from `thread.contract.ts`. -/
def assertContextTransition (f t : String) : Except String Unit :=
  assertTransition THREAD_CONTEXT_TRANSITIONS f t "context.status"

/-- `assertExecutionTransition` from `thread.contract.ts`. -/
def assertExecutionTransition (f t : String) : Except String Unit :=
  assertTransition THREAD_EXECUTION_TRANSITIONS f t "execution.status"

/-- `assertStepTransition` from `thread.contract.ts`. -/
def assertStepTransition (f t : String) : Except String Unit :=
  assertTransition THREAD_STEP_TRANSITIONS f t "step.status"

/-- `assertItemTransition` from `thread.contract.ts`. -/
def assertItemTransition (f t : String) : Except String Unit :=
  assertTransition THREAD_ITEM_TRANSITIONS f t "item.status"

/-- The template literal `` `${stepId}:${idx}` `` computed as `expected` by
`assertThreadPartKey` in `thread.contract.ts`. -/
def partKeyExpected (stepId : String) (idx : Int) : String :=
  stepId ++ ":" ++ toString idx

/-- `assertThreadPartKey` from `thread.contract.ts`: a key different from
`partKeyExpected stepId idx` throws
`Invalid thread_parts.key: expected "<expected>" got "<key>"`. -/
def assertThreadPartKey (stepId : String) (idx : Int) (key : String) :
    Except String Unit :=
  if key != partKeyExpected stepId idx then
    .error ("Invalid thread_parts.key: expected \"" ++ partKeyExpected stepId idx ++
      "\" got \"" ++ key ++ "\"")
  else
    .ok ()

/-! Spec-side description of the five tables, written from the tables listed
in the specification (section 4.1) so they can be compared with the source
tables above. -/

/-- The `(from, to)` pairs the specification lists for the thread table. -/
def specThreadPairs : List (String × String) :=
  [("idle", "streaming"), ("streaming", "idle")]

/-- The `(from, to)` pairs the specification lists for the context table. -/
def specContextPairs : List (String × String) :=
  [("open", "closed"), ("closed", "open")]

/-- The `(from, to)` pairs the specification lists for the execution table. -/
def specExecutionPairs : List (String × String) :=
  [("executing", "completed"), ("executing", "failed")]

/-- The `(from, to)` pairs the specification lists for the step table. -/
def specStepPairs : List (String × String) :=
  [("running", "completed"), ("running", "failed")]

/-- The `(from, to)` pairs the specification lists for the item table. -/
def specItemPairs : List (String × String) :=
  [("stored", "pending"), ("stored", "completed"), ("pending", "completed")]

theorem canTransition_iff (trs : List Transition) (f t : String) :
    canTransition trs f t = true ↔ ∃ tr ∈ trs, tr.fromState = f ∧ tr.toState = t := by
  simp [canTransition, List.any_eq_true, Bool.and_eq_true, beq_iff_eq]

theorem assertTransition_ok_iff (trs : List Transition) (f t e : String) :
    assertTransition trs f t e = .ok () ↔ canTransition trs f t = true := by
  unfold assertTransition
  split <;> simp_all

theorem assertTransition_error (trs : List Transition) (f t e : String)
    (h : canTransition trs f t = false) :
    assertTransition trs f t e = .error (transitionErrorMessage e f t) := by
  unfold assertTransition
  simp [h]

theorem canThreadTransition_iff_mem (f t : String) :
    canThreadTransition f t = true ↔ (f, t) ∈ specThreadPairs := by
  rw [canThreadTransition, canTransition_iff]
  simp [THREAD_THREAD_TRANSITIONS, specThreadPairs, Prod.ext_iff]
  tauto

theorem canContextTransition_iff_mem (f t : String) :
    canContextTransition f t = true ↔ (f, t) ∈ specContextPairs := by
  rw [canContextTransition, canTransition_iff]
  simp [THREAD_CONTEXT_TRANSITIONS, specContextPairs, Prod.ext_iff]
  tauto

theorem canExecutionTransition_iff_mem (f t : String) :
    canExecutionTransition f t = true ↔ (f, t) ∈ specExecutionPairs := by
  rw [canExecutionTransition, canTransition_iff]
  simp [THREAD_EXECUTION_TRANSITIONS, specExecutionPairs, Prod.ext_iff]
  tauto

theorem canStepTransition_iff_mem (f t : String) :
    canStepTransition f t = true ↔ (f, t) ∈ specStepPairs := by
  rw [canStepTransition, canTransition_iff]
  simp [THREAD_STEP_TRANSITIONS, specStepPairs, Prod.ext_iff]
  tauto

theorem canItemTransition_iff_mem (f t : String) :
    canItemTransition f t = true ↔ (f, t) ∈ specItemPairs := by
  rw [canItemTransition, canTransition_iff]
  simp [THREAD_ITEM_TRANSITIONS, specItemPairs, Prod.ext_iff]
  tauto

theorem assertTransition_spec (trs : List Transition)
    (pairs : List (String × String)) (e : String)
    (hiff : ∀ f t, canTransition trs f t = true ↔ (f, t) ∈ pairs)
    (f t : String) :
    (assertTransition trs f t e = .ok () ↔ (f, t) ∈ pairs) ∧
    ((f, t) ∉ pairs →
      assertTransition trs f t e = .error (transitionErrorMessage e f t)) := by
  constructor
  · exact (assertTransition_ok_iff trs f t e).trans (hiff f t)
  · intro h
    apply assertTransition_error
    cases hcb : canTransition trs f t with
    | false => rfl
    | true => exact absurd ((hiff f t).mp hcb) h

/-- **C1.** For each of the five entity kinds, `can*Transition(from, to)`
returns `true` exactly for the `(from, to)` pairs in the spec's tables, and
`assert*Transition(from, to)` succeeds exactly on those pairs and otherwise
raises an error identifying the entity kind and both states. -/
theorem transition_contract_matches_spec_tables :
    ∀ f t : String,
      (canThreadTransition f t = true ↔ (f, t) ∈ specThreadPairs) ∧
      (assertThreadTransition f t = .ok () ↔ (f, t) ∈ specThreadPairs) ∧
      ((f, t) ∉ specThreadPairs →
        assertThreadTransition f t =
          .error (transitionErrorMessage "thread.status" f t)) ∧
      (canContextTransition f t = true ↔ (f, t) ∈ specContextPairs) ∧
      (assertContextTransition f t = .ok () ↔ (f, t) ∈ specContextPairs) ∧
      ((f, t) ∉ specContextPairs →
        assertContextTransition f t =
          .error (transitionErrorMessage "context.status" f t)) ∧
      (canExecutionTransition f t = true ↔ (f, t) ∈ specExecutionPairs) ∧
      (assertExecutionTransition f t = .ok () ↔ (f, t) ∈ specExecutionPairs) ∧
      ((f, t) ∉ specExecutionPairs →
        assertExecutionTransition f t =
          .error (transitionErrorMessage "execution.status" f t)) ∧
      (canStepTransition f t = true ↔ (f, t) ∈ specStepPairs) ∧
      (assertStepTransition f t = .ok () ↔ (f, t) ∈ specStepPairs) ∧
      ((f, t) ∉ specStepPairs →
        assertStepTransition f t =
          .error (transitionErrorMessage "step.status" f t)) ∧
      (canItemTransition f t = true ↔ (f, t) ∈ specItemPairs) ∧
      (assertItemTransition f t = .ok () ↔ (f, t) ∈ specItemPairs) ∧
      ((f, t) ∉ specItemPairs →
        assertItemTransition f t =
          .error (transitionErrorMessage "item.status" f t)) := by
  intro f t
  have hThread :=
    assertTransition_spec THREAD_THREAD_TRANSITIONS specThreadPairs
      "thread.status" canThreadTransition_iff_mem f t
  have hContext :=
    assertTransition_spec THREAD_CONTEXT_TRANSITIONS specContextPairs
      "context.status" canContextTransition_iff_mem f t
  have hExecution :=
    assertTransition_spec THREAD_EXECUTION_TRANSITIONS specExecutionPairs
      "execution.status" canExecutionTransition_iff_mem f t
  have hStep :=
    assertTransition_spec THREAD_STEP_TRANSITIONS specStepPairs
      "step.status" canStepTransition_iff_mem f t
  have hItem :=
    assertTransition_spec THREAD_ITEM_TRANSITIONS specItemPairs
      "item.status" canItemTransition_iff_mem f t
  exact ⟨canThreadTransition_iff_mem f t, hThread.1, hThread.2,
    canContextTransition_iff_mem f t, hContext.1, hContext.2,
    canExecutionTransition_iff_mem f t, hExecution.1, hExecution.2,
    canStepTransition_iff_mem f t, hStep.1, hStep.2,
    canItemTransition_iff_mem f t, hItem.1, hItem.2⟩

/-- **C1 witness.** The theorem applied at the legal pair
`("idle", "streaming")` and, through the negative conjunct, at the illegal
pair `("completed", "executing")`. -/
theorem transition_contract_matches_spec_tables_witness :
    canThreadTransition "idle" "streaming" = true ∧
    assertExecutionTransition "completed" "executing" =
      .error (transitionErrorMessage "execution.status" "completed" "executing") :=
  ⟨((transition_contract_matches_spec_tables "idle" "streaming").1).mpr (by decide),
    ((transition_contract_matches_spec_tables "completed" "executing").2.2.2.2.2.2.2.2.1)
      (by decide)⟩

/-- **C7.** `assertThreadPartKey(stepId, idx, key)` succeeds exactly when
`key` equals `"<stepId>:<idx>"`, and otherwise raises the mismatch error; a
mismatched key is rejected, never silently corrected. -/
theorem assertThreadPartKey_iff :
    ∀ (stepId : String) (idx : Int) (key : String),
      (assertThreadPartKey stepId idx key = .ok () ↔
        key = partKeyExpected stepId idx) ∧
      (key ≠ partKeyExpected stepId idx →
        assertThreadPartKey stepId idx key =
          .error ("Invalid thread_parts.key: expected \"" ++
            partKeyExpected stepId idx ++ "\" got \"" ++ key ++ "\"")) := by
  intro stepId idx key
  unfold assertThreadPartKey
  constructor
  · split <;> simp_all
  · intro h
    simp [bne_iff_ne, h]

/-- **C7 witness.** The theorem applied at `stepId = "s1"`, `idx = 2`, the
matching key `"s1:2"` and the mismatched key `"s1:3"`. -/
theorem assertThreadPartKey_iff_witness :
    assertThreadPartKey "s1" 2 "s1:2" = .ok () ∧
    assertThreadPartKey "s1" 2 "s1:3" =
      .error "Invalid thread_parts.key: expected \"s1:2\" got \"s1:3\"" :=
  ⟨((assertThreadPartKey_iff "s1" 2 "s1:2").1).mpr (by decide),
    (assertThreadPartKey_iff "s1" 2 "s1:3").2 (by decide)⟩

/-- **C10.** For every entity kind and every status value of that kind, the
self-transition `(s, s)` is absent from the table: `can*Transition(s, s)`
returns `false` and `assert*Transition(s, s)` raises. -/
theorem no_self_transitions :
    (∀ s ∈ ["idle", "streaming"],
      canThreadTransition s s = false ∧
        assertThreadTransition s s =
          .error (transitionErrorMessage "thread.status" s s)) ∧
    (∀ s ∈ ["open", "closed"],
      canContextTransition s s = false ∧
        assertContextTransition s s =
          .error (transitionErrorMessage "context.status" s s)) ∧
    (∀ s ∈ ["executing", "completed", "failed"],
      canExecutionTransition s s = false ∧
        assertExecutionTransition s s =
          .error (transitionErrorMessage "execution.status" s s)) ∧
    (∀ s ∈ ["running", "completed", "failed"],
      canStepTransition s s = false ∧
        assertStepTransition s s =
          .error (transitionErrorMessage "step.status" s s)) ∧
    (∀ s ∈ ["stored", "pending", "completed"],
      canItemTransition s s = false ∧
        assertItemTransition s s =
          .error (transitionErrorMessage "item.status" s s)) := by
  refine ⟨?_, ?_, ?_, ?_, ?_⟩
  all_goals intro s hs
  all_goals fin_cases hs <;> exact ⟨rfl, rfl⟩

/-! ### Chunk normalization (`mapAiSdkChunkType` and `mapCodexChunkType`) -/

/-- `THREAD_STREAM_CHUNK_TYPES` from `thread.contract.ts`: the canonical
chunk taxonomy (lifecycle, text, reasoning, action, source, metadata and
error/unknown groups concatenated). -/
def THREAD_STREAM_CHUNK_TYPES : List String :=
  ["chunk.start", "chunk.start_step", "chunk.finish_step", "chunk.finish",
   "chunk.text_start", "chunk.text_delta", "chunk.text_end",
   "chunk.reasoning_start", "chunk.reasoning_delta", "chunk.reasoning_end",
   "chunk.action_input_start", "chunk.action_input_delta",
   "chunk.action_input_available", "chunk.action_output_available",
   "chunk.action_output_error",
   "chunk.source_url", "chunk.source_document", "chunk.file",
   "chunk.message_metadata", "chunk.response_metadata",
   "chunk.error", "chunk.unknown"]

/-- `isThreadStreamChunkType` from `thread.contract.ts`. -/
def isThreadStreamChunkType (value : String) : Bool :=
  THREAD_STREAM_CHUNK_TYPES.contains value

/-- Whether the character list `s` starts with the character list `pat`. -/
def charsStartWith : List Char → List Char → Bool
  | _, [] => true
  | [], _ :: _ => false
  | c :: cs, p :: ps => c == p && charsStartWith cs ps

/-- Whether the character list `pat` occurs contiguously inside `s`. -/
def charsContain (s pat : List Char) : Bool :=
  match s with
  | [] => charsStartWith [] pat
  | _ :: cs => charsStartWith s pat || charsContain cs pat

/-- JavaScript `String.prototype.includes`: `pat` occurs contiguously in
`s`. -/
def jsIncludes (s pat : String) : Bool :=
  charsContain s.data pat.data

/-- JavaScript `String.prototype.toLowerCase`, on the ASCII chunk-type
strings involved here: lowercase every character. -/
def jsToLowerCase (s : String) : String :=
  String.mk (s.data.map Char.toLower)

/-- `mapAiSdkChunkType` from the AI-SDK stream mapper: an exact `switch` on
the producer's raw chunk type string, defaulting to `chunk.unknown`. -/
def mapAiSdkChunkType (providerChunkType : String) : String :=
  match providerChunkType with
  | "start" | "stream-start" => "chunk.start"
  | "start-step" => "chunk.start_step"
  | "finish-step" => "chunk.finish_step"
  | "finish" => "chunk.finish"
  | "text-start" => "chunk.text_start"
  | "text-delta" => "chunk.text_delta"
  | "text-end" => "chunk.text_end"
  | "reasoning-start" => "chunk.reasoning_start"
  | "reasoning-delta" => "chunk.reasoning_delta"
  | "reasoning-end" => "chunk.reasoning_end"
  | "tool-input-start" | "tool-call-start" => "chunk.action_input_start"
  | "tool-input-delta" | "tool-call-delta" => "chunk.action_input_delta"
  | "tool-input-available" | "tool-input-end" | "tool-call" | "tool-call-end" =>
    "chunk.action_input_available"
  | "tool-output-available" => "chunk.action_output_available"
  | "tool-output-error" => "chunk.action_output_error"
  | "source-url" => "chunk.source_url"
  | "source-document" => "chunk.source_document"
  | "file" => "chunk.file"
  | "message-metadata" => "chunk.message_metadata"
  | "response-metadata" => "chunk.response_metadata"
  | "error" => "chunk.error"
  | _ => "chunk.unknown"

/-- The producer chunk type strings `mapAiSdkChunkType` recognizes (the
`case` labels of its `switch`). -/
def aiSdkKnownProviderTypes : List String :=
  ["start", "stream-start", "start-step", "finish-step", "finish",
   "text-start", "text-delta", "text-end",
   "reasoning-start", "reasoning-delta", "reasoning-end",
   "tool-input-start", "tool-call-start", "tool-input-delta",
   "tool-call-delta", "tool-input-available", "tool-input-end", "tool-call",
   "tool-call-end", "tool-output-available", "tool-output-error",
   "source-url", "source-document", "file",
   "message-metadata", "response-metadata", "error"]

/-- The cascade of `mapCodexChunkType` from `codex.reactor.ts`, applied to
the already-lowercased value (the source binds
`const value = providerChunkType.toLowerCase()` first). -/
def mapCodexChunkTypeLower (value : String) : String :=
  if jsIncludes value "start_step" then "chunk.start_step"
  else if value == "start" then "chunk.start"
  else if jsIncludes value "finish_step" then "chunk.finish_step"
  else if value == "finish" then "chunk.finish"
  else if jsIncludes value "reasoning_start" then "chunk.reasoning_start"
  else if jsIncludes value "reasoning_delta" then "chunk.reasoning_delta"
  else if jsIncludes value "reasoning_end" then "chunk.reasoning_end"
  else if jsIncludes value "action_input_start" || jsIncludes value "tool_input_start" then
    "chunk.action_input_start"
  else if jsIncludes value "action_input_delta" || jsIncludes value "tool_input_delta" then
    "chunk.action_input_delta"
  else if jsIncludes value "action_input_available" ||
      jsIncludes value "tool_input_available" || jsIncludes value "action_call" then
    "chunk.action_input_available"
  else if jsIncludes value "action_output_available" ||
      jsIncludes value "tool_output_available" then
    "chunk.action_output_available"
  else if jsIncludes value "action_output_error" ||
      jsIncludes value "tool_output_error" then
    "chunk.action_output_error"
  else if jsIncludes value "message_metadata" then "chunk.message_metadata"
  else if jsIncludes value "response_metadata" then "chunk.response_metadata"
  else if jsIncludes value "text_start" then "chunk.text_start"
  else if jsIncludes value "text_delta" ||
      (jsIncludes value "message" && jsIncludes value "delta") then
    "chunk.text_delta"
  else if jsIncludes value "text_end" then "chunk.text_end"
  else if jsIncludes value "source_url" then "chunk.source_url"
  else if jsIncludes value "source_document" then "chunk.source_document"
  else if jsIncludes value "file" then "chunk.file"
  else if jsIncludes value "error" then "chunk.error"
  else "chunk.unknown"

/-- `mapCodexChunkType` from `codex.reactor.ts`: lowercases the producer's
raw chunk type string, then runs the substring/equality cascade. -/
def mapCodexChunkType (providerChunkType : String) : String :=
  mapCodexChunkTypeLower (jsToLowerCase providerChunkType)

/-- **C6 counterexample.** The AI-SDK producer-to-canonical mapping is not
case-insensitized: `"FINISH"` falls into the unknown bucket while `"finish"`
maps to `chunk.finish`. -/
theorem mapAiSdkChunkType_not_case_insensitive :
    mapAiSdkChunkType "FINISH" = "chunk.unknown" ∧
    mapAiSdkChunkType "finish" = "chunk.finish" ∧
    mapAiSdkChunkType "FINISH" ≠ mapAiSdkChunkType "finish" := by
  refine ⟨rfl, rfl, ?_⟩
  decide

theorem mem_ite_chain {c : Prop} [Decidable c] {a b : String} {l : List String}
    (ha : a ∈ l) (hb : b ∈ l) : (if c then a else b) ∈ l := by
  split <;> assumption

set_option maxHeartbeats 3200000 in
/-- **C6 (amended).** Both producer-to-canonical chunk mappings are total
into the canonical taxonomy and send every unrecognized string to the
unknown bucket instead of raising; the Codex mapping is case-insensitized
substring/equality matching in an ordered cascade with specific rules before
generic ones, while the AI-SDK mapping matches by exact, case-sensitive
equality. -/
theorem chunk_mapping_total_and_cascaded :
    (∀ s, mapAiSdkChunkType s ∈ THREAD_STREAM_CHUNK_TYPES) ∧
    (∀ s, mapCodexChunkType s ∈ THREAD_STREAM_CHUNK_TYPES) ∧
    (∀ s t, jsToLowerCase s = jsToLowerCase t →
      mapCodexChunkType s = mapCodexChunkType t) ∧
    (∀ s, s ∉ aiSdkKnownProviderTypes → mapAiSdkChunkType s = "chunk.unknown") ∧
    mapCodexChunkType "agent_message.REASONING_DELTA" = "chunk.reasoning_delta" := by
  have hLower : ∀ v, mapCodexChunkTypeLower v ∈ THREAD_STREAM_CHUNK_TYPES := by
    intro v
    unfold mapCodexChunkTypeLower
    repeat' apply mem_ite_chain
    all_goals decide
  refine ⟨?_, ?_, ?_, ?_, ?_⟩
  · intro s
    unfold mapAiSdkChunkType
    split <;> decide
  · intro s
    exact hLower (jsToLowerCase s)
  · intro s t h
    unfold mapCodexChunkType
    rw [h]
  · intro s h
    unfold mapAiSdkChunkType
    split <;> first
      | rfl
      | exact absurd (by decide) h
  · decide

/-- **C6 witness.** The amended theorem applied at the concrete inputs
`"Finish"`/`"FINISH"` (same lowercasing) and the unrecognized string
`"bogus-chunk"`. -/
theorem chunk_mapping_total_and_cascaded_witness :
    mapCodexChunkType "Finish" = mapCodexChunkType "FINISH" ∧
    mapAiSdkChunkType "bogus-chunk" = "chunk.unknown" :=
  ⟨chunk_mapping_total_and_cascaded.2.2.1 "Finish" "FINISH" (by decide),
    chunk_mapping_total_and_cascaded.2.2.2.1 "bogus-chunk" (by decide)⟩

/-! ### Stream event codec (`thread.stream.ts`) -/

/-- A JavaScript value as seen by the stream codec: strings, numbers (with
`NaN` separate, since `assertNumber` rejects it), booleans, `null`, records
and arrays. A missing record field is `Option.none` at the access site. -/
inductive JVal where
  | str (s : String)
  | num (n : Int)
  | nan
  | bool (b : Bool)
  | null
  | obj (fields : List (String × JVal))
  | arr (elems : List JVal)

/-- JavaScript property read `value[key]` on a record: first binding wins,
absent keys give `none` (i.e. `undefined`). -/
def getField : List (String × JVal) → String → Option JVal
  | [], _ => none
  | (k, w) :: rest, key => if k == key then some w else getField rest key

/-- `assertObject` from `thread.stream.ts`: `!value || typeof value !==
"object"` rejects everything but records and arrays (an array is an
`object` in JavaScript with no string-keyed own fields the codec reads). -/
def asObjectFields : JVal → Option (List (String × JVal))
  | .obj fields => some fields
  | .arr _ => some []
  | _ => none

/-- `assertString` from `thread.stream.ts`: succeeds only on a non-empty
string. -/
def assertString (v : Option JVal) (label : String) : Except String Unit :=
  match v with
  | some (.str s) =>
    if s.length == 0 then .error s!"Invalid {label}: expected non-empty string."
    else .ok ()
  | _ => .error s!"Invalid {label}: expected non-empty string."

/-- `assertNumber` from `thread.stream.ts`: succeeds only on a non-`NaN`
number. -/
def assertNumber (v : Option JVal) (label : String) : Except String Unit :=
  match v with
  | some (.num _) => .ok ()
  | _ => .error s!"Invalid {label}: expected number."

/-- `assertOptionalString` from `thread.stream.ts`: an absent field passes,
a present one must satisfy `assertString`. -/
def assertOptionalString (v : Option JVal) (label : String) : Except String Unit :=
  match v with
  | none => .ok ()
  | some w => assertString (some w) label

/-- `assertOptionalNumber` from `thread.stream.ts`. -/
def assertOptionalNumber (v : Option JVal) (label : String) : Except String Unit :=
  match v with
  | none => .ok ()
  | some w => assertNumber (some w) label

/-- The `switch (type)` body of `parseThreadStreamEvent` in
`thread.stream.ts`: dispatches on the `type` string over the closed set of
event shapes, checks each shape's required and optional fields in source
order, and returns the record itself on success; an unknown `type` raises
`Unsupported thread stream event type`. -/
def parseThreadStreamEventBody (fields : List (String × JVal)) (ty : String)
    (v : JVal) : Except String JVal :=
  match ty with
  | "context.created" | "context.resolved" => do
          assertString (getField fields "contextId") (ty ++ ".contextId")
          assertString (getField fields "threadId") (ty ++ ".threadId")
          assertString (getField fields "status") (ty ++ ".status")
          pure v
        | "context.opened" | "context.closed" => do
          assertString (getField fields "contextId") (ty ++ ".contextId")
          assertString (getField fields "threadId") (ty ++ ".threadId")
          assertString (getField fields "status") (ty ++ ".status")
          pure v
        | "context.content_updated" => do
          assertString (getField fields "contextId") (ty ++ ".contextId")
          assertString (getField fields "threadId") (ty ++ ".threadId")
          pure v
        | "thread.created" | "thread.resolved" | "thread.streaming_started"
        | "thread.idle" => do
          assertString (getField fields "threadId") (ty ++ ".threadId")
          assertString (getField fields "status") (ty ++ ".status")
          pure v
        | "execution.created" | "execution.completed" | "execution.failed" => do
          assertString (getField fields "executionId") (ty ++ ".executionId")
          assertString (getField fields "contextId") (ty ++ ".contextId")
          assertString (getField fields "threadId") (ty ++ ".threadId")
          assertString (getField fields "status") (ty ++ ".status")
          pure v
        | "item.created" => do
          assertString (getField fields "itemId") (ty ++ ".itemId")
          assertString (getField fields "contextId") (ty ++ ".contextId")
          assertString (getField fields "threadId") (ty ++ ".threadId")
          assertString (getField fields "status") (ty ++ ".status")
          assertOptionalString (getField fields "executionId") (ty ++ ".executionId")
          assertOptionalString (getField fields "itemType") (ty ++ ".itemType")
          pure v
        | "item.updated" => do
          assertString (getField fields "itemId") (ty ++ ".itemId")
          assertString (getField fields "contextId") (ty ++ ".contextId")
          assertString (getField fields "threadId") (ty ++ ".threadId")
          assertOptionalString (getField fields "executionId") (ty ++ ".executionId")
          assertOptionalString (getField fields "status") (ty ++ ".status")
          pure v
        | "item.pending" | "item.completed" => do
          assertString (getField fields "itemId") (ty ++ ".itemId")
          assertString (getField fields "contextId") (ty ++ ".contextId")
          assertString (getField fields "threadId") (ty ++ ".threadId")
          assertOptionalString (getField fields "executionId") (ty ++ ".executionId")
          assertString (getField fields "status") (ty ++ ".status")
          pure v
        | "step.created" => do
          assertString (getField fields "stepId") (ty ++ ".stepId")
          assertString (getField fields "executionId") (ty ++ ".executionId")
          assertNumber (getField fields "iteration") (ty ++ ".iteration")
          assertString (getField fields "status") (ty ++ ".status")
          pure v
        | "step.updated" => do
          assertString (getField fields "stepId") (ty ++ ".stepId")
          assertString (getField fields "executionId") (ty ++ ".executionId")
          assertOptionalNumber (getField fields "iteration") (ty ++ ".iteration")
          assertOptionalString (getField fields "status") (ty ++ ".status")
          assertOptionalString (getField fields "kind") (ty ++ ".kind")
          assertOptionalString (getField fields "actionName") (ty ++ ".actionName")
          pure v
        | "step.completed" | "step.failed" => do
          assertString (getField fields "stepId") (ty ++ ".stepId")
          assertString (getField fields "executionId") (ty ++ ".executionId")
          assertOptionalNumber (getField fields "iteration") (ty ++ ".iteration")
          assertString (getField fields "status") (ty ++ ".status")
          (if ty == "step.failed" then
            assertOptionalString (getField fields "errorText") (ty ++ ".errorText")
          else pure ())
          pure v
        | "part.created" | "part.updated" => do
          assertString (getField fields "partKey") (ty ++ ".partKey")
          assertString (getField fields "stepId") (ty ++ ".stepId")
          assertNumber (getField fields "idx") (ty ++ ".idx")
          assertOptionalString (getField fields "partType") (ty ++ ".partType")
          assertOptionalString (getField fields "partPreview") (ty ++ ".partPreview")
          assertOptionalString (getField fields "partState") (ty ++ ".partState")
          assertOptionalString (getField fields "partToolCallId") (ty ++ ".partToolCallId")
          pure v
        | "chunk.emitted" =>
          match getField fields "chunkType" with
          | some (.str ct) =>
            if ct.length == 0 then
              .error s!"Invalid {ty}.chunkType: expected non-empty string."
            else if !isThreadStreamChunkType ct then
              .error s!"Invalid {ty}.chunkType: {ct}"
            else do
              assertString (getField fields "contextId") (ty ++ ".contextId")
              assertOptionalString (getField fields "executionId") (ty ++ ".executionId")
              assertOptionalString (getField fields "stepId") (ty ++ ".stepId")
              assertOptionalString (getField fields "itemId") (ty ++ ".itemId")
              assertOptionalString (getField fields "partKey") (ty ++ ".partKey")
              assertOptionalString (getField fields "actionRef") (ty ++ ".actionRef")
              assertOptionalString (getField fields "provider") (ty ++ ".provider")
              assertOptionalString (getField fields "providerChunkType")
                (ty ++ ".providerChunkType")
              assertOptionalNumber (getField fields "sequence") (ty ++ ".sequence")
              pure v
          | _ => .error s!"Invalid {ty}.chunkType: expected non-empty string."
  | _ => .error s!"Unsupported thread stream event type: {ty}"

/-- `parseThreadStreamEvent` from `thread.stream.ts`: checks that the value
is an object and that its `type` and `at` fields are non-empty strings, then
dispatches on the `type` string through `parseThreadStreamEventBody`. -/
def parseThreadStreamEvent (v : JVal) : Except String JVal :=
  match asObjectFields v with
  | none => .error "Invalid thread stream event: expected object."
  | some fields =>
    match getField fields "type" with
    | some (.str ty) =>
      if ty.length == 0 then
        .error "Invalid thread stream event.type: expected non-empty string."
      else do
        assertString (getField fields "at") "thread stream event.at"
        parseThreadStreamEventBody fields ty v
    | _ => .error "Invalid thread stream event.type: expected non-empty string."

/-- `assertThreadStreamTransitions` from `thread.stream.ts`: its body is a
bare `return` — it performs no check at all. -/
def assertThreadStreamTransitions (_event : JVal) : Except String Unit :=
  .ok ()

/-- `validateThreadStreamTimeline` from `thread.stream.ts`: applies
`assertThreadStreamTransitions` to each event in sequence order, failing at
the first event whose check fails. -/
def validateThreadStreamTimeline : List JVal → Except String Unit
  | [] => .ok ()
  | e :: rest => do
    assertThreadStreamTransitions e
    validateThreadStreamTimeline rest

/-! Spec-side description of the event shapes: each known `type` string has
a list of required/optional fields with type checks, and parsing must
succeed exactly when the matched shape's checks all pass. -/

/-- A non-empty string field is present. -/
def strFieldOk : Option JVal → Bool
  | some (.str s) => s.length != 0
  | _ => false

/-- A (non-`NaN`) number field is present. -/
def numFieldOk : Option JVal → Bool
  | some (.num _) => true
  | _ => false

/-- The field is absent, or is a non-empty string. -/
def optStrFieldOk : Option JVal → Bool
  | none => true
  | some w => strFieldOk (some w)

/-- The field is absent, or is a number. -/
def optNumFieldOk : Option JVal → Bool
  | none => true
  | some w => numFieldOk (some w)

/-- A canonical chunk type string is present. -/
def chunkTypeFieldOk : Option JVal → Bool
  | some (.str s) => s.length != 0 && isThreadStreamChunkType s
  | _ => false

/-- One field requirement of an event shape. -/
inductive FieldReq where
  | reqStr (name : String)
  | optStr (name : String)
  | reqNum (name : String)
  | optNum (name : String)
  | reqChunkType (name : String)

/-- Check one field requirement against a record. -/
def checkFieldReq (fields : List (String × JVal)) : FieldReq → Bool
  | .reqStr n => strFieldOk (getField fields n)
  | .optStr n => optStrFieldOk (getField fields n)
  | .reqNum n => numFieldOk (getField fields n)
  | .optNum n => optNumFieldOk (getField fields n)
  | .reqChunkType n => chunkTypeFieldOk (getField fields n)

/-- The closed set of event shapes: for each known `type` string, the list
of field requirements of that shape; unknown strings have no shape. -/
def shapeFieldReqs (ty : String) : Option (List FieldReq) :=
  match ty with
  | "context.created" | "context.resolved" | "context.opened"
  | "context.closed" =>
    some [.reqStr "contextId", .reqStr "threadId", .reqStr "status"]
  | "context.content_updated" =>
    some [.reqStr "contextId", .reqStr "threadId"]
  | "thread.created" | "thread.resolved" | "thread.streaming_started"
  | "thread.idle" =>
    some [.reqStr "threadId", .reqStr "status"]
  | "execution.created" | "execution.completed" | "execution.failed" =>
    some [.reqStr "executionId", .reqStr "contextId", .reqStr "threadId",
      .reqStr "status"]
  | "item.created" =>
    some [.reqStr "itemId", .reqStr "contextId", .reqStr "threadId",
      .reqStr "status", .optStr "executionId", .optStr "itemType"]
  | "item.updated" =>
    some [.reqStr "itemId", .reqStr "contextId", .reqStr "threadId",
      .optStr "executionId", .optStr "status"]
  | "item.pending" | "item.completed" =>
    some [.reqStr "itemId", .reqStr "contextId", .reqStr "threadId",
      .optStr "executionId", .reqStr "status"]
  | "step.created" =>
    some [.reqStr "stepId", .reqStr "executionId", .reqNum "iteration",
      .reqStr "status"]
  | "step.updated" =>
    some [.reqStr "stepId", .reqStr "executionId", .optNum "iteration",
      .optStr "status", .optStr "kind", .optStr "actionName"]
  | "step.completed" =>
    some [.reqStr "stepId", .reqStr "executionId", .optNum "iteration",
      .reqStr "status"]
  | "step.failed" =>
    some [.reqStr "stepId", .reqStr "executionId", .optNum "iteration",
      .reqStr "status", .optStr "errorText"]
  | "part.created" | "part.updated" =>
    some [.reqStr "partKey", .reqStr "stepId", .reqNum "idx",
      .optStr "partType", .optStr "partPreview", .optStr "partState",
      .optStr "partToolCallId"]
  | "chunk.emitted" =>
    some [.reqChunkType "chunkType", .reqStr "contextId",
      .optStr "executionId", .optStr "stepId", .optStr "itemId",
      .optStr "partKey", .optStr "actionRef", .optStr "provider",
      .optStr "providerChunkType", .optNum "sequence"]
  | _ => none

/-- All field requirements of the shape matched by `ty` pass; `false` when
`ty` is no known shape. -/
def shapeChecksOk (fields : List (String × JVal)) (ty : String) : Bool :=
  match shapeFieldReqs ty with
  | some reqs => reqs.all (checkFieldReq fields)
  | none => false

/-- A record is a well-formed thread stream event: it is an object, its
`type` is a known shape's non-empty string, its `at` is a non-empty string,
and all field requirements of the matched shape pass. -/
def wellFormedThreadStreamEvent (v : JVal) : Bool :=
  match asObjectFields v with
  | none => false
  | some fields =>
    match getField fields "type" with
    | some (.str ty) =>
      (ty.length != 0) &&
      (strFieldOk (getField fields "at") && shapeChecksOk fields ty)
    | _ => false

theorem assertString_isOk (x : Option JVal) (l : String) :
    (assertString x l).isOk = strFieldOk x := by
  cases x with
  | none => rfl
  | some w =>
    cases w <;> try rfl
    rename_i s
    cases h : (s.length == 0 : Bool)
    · simp [assertString, strFieldOk, bne, h, Except.isOk, Except.toBool]
    · simp [assertString, strFieldOk, bne, h, Except.isOk, Except.toBool]

theorem assertNumber_isOk (x : Option JVal) (l : String) :
    (assertNumber x l).isOk = numFieldOk x := by
  unfold assertNumber numFieldOk
  cases x with
  | none => rfl
  | some w => cases w <;> rfl

theorem assertOptionalString_isOk (x : Option JVal) (l : String) :
    (assertOptionalString x l).isOk = optStrFieldOk x := by
  unfold assertOptionalString optStrFieldOk
  cases x with
  | none => rfl
  | some w => exact assertString_isOk (some w) l

theorem assertOptionalNumber_isOk (x : Option JVal) (l : String) :
    (assertOptionalNumber x l).isOk = optNumFieldOk x := by
  unfold assertOptionalNumber optNumFieldOk
  cases x with
  | none => rfl
  | some w => exact assertNumber_isOk (some w) l

theorem isOk_bindU {β : Type} (x : Except String Unit)
    (f : Unit → Except String β) :
    (x >>= f).isOk = (x.isOk && (f ()).isOk) := by
  cases x with
  | error e => rfl
  | ok u => cases u; rfl

theorem isOk_pure (v : JVal) : (pure v : Except String JVal).isOk = true := rfl

theorem assertString_eq_ok (x : Option JVal) (l : String)
    (h : strFieldOk x = true) : assertString x l = .ok () := by
  cases x with
  | none => simp [strFieldOk] at h
  | some w =>
    cases w <;> simp [strFieldOk, bne] at h
    rename_i s
    simp [assertString, h]

theorem assertNumber_eq_ok (x : Option JVal) (l : String)
    (h : numFieldOk x = true) : assertNumber x l = .ok () := by
  unfold assertNumber
  unfold numFieldOk at h
  cases x with
  | none => exact absurd h (by simp)
  | some w => cases w <;> simp_all

theorem assertOptionalString_eq_ok (x : Option JVal) (l : String)
    (h : optStrFieldOk x = true) : assertOptionalString x l = .ok () := by
  unfold assertOptionalString
  unfold optStrFieldOk at h
  cases x with
  | none => rfl
  | some w => exact assertString_eq_ok (some w) l h

theorem assertOptionalNumber_eq_ok (x : Option JVal) (l : String)
    (h : optNumFieldOk x = true) : assertOptionalNumber x l = .ok () := by
  unfold assertOptionalNumber
  unfold optNumFieldOk at h
  cases x with
  | none => rfl
  | some w => exact assertNumber_eq_ok (some w) l h

theorem bind_ok_unit {β : Type} (f : Unit → Except String β) :
    ((Except.ok () : Except String Unit) >>= f) = f () := rfl

theorem isOk_mapU {β : Type} (x : Except String Unit) (g : Unit → β) :
    (g <$> x).isOk = x.isOk := by
  cases x <;> rfl

theorem map_ok_unit {β : Type} (g : Unit → β) :
    (g <$> (Except.ok () : Except String Unit)) = .ok (g ()) := rfl

theorem isOk_error {β : Type} (e : String) :
    (Except.error e : Except String β).isOk = false := rfl

set_option maxHeartbeats 6400000 in
theorem parseBody_isOk (fields : List (String × JVal)) (ty : String) (v : JVal) :
    (parseThreadStreamEventBody fields ty v).isOk = shapeChecksOk fields ty := by
  unfold parseThreadStreamEventBody
  split
  all_goals try
    (simp [shapeChecksOk, shapeFieldReqs, checkFieldReq, isOk_bindU,
      isOk_mapU, assertString_isOk, assertNumber_isOk,
      assertOptionalString_isOk, assertOptionalNumber_isOk, isOk_pure,
      isOk_error]
     done)
  all_goals try
    (cases hct : getField fields "chunkType" with
     | none =>
       simp [hct, shapeChecksOk, shapeFieldReqs, checkFieldReq,
         chunkTypeFieldOk, isOk_error]
     | some w =>
       cases w <;> try
         (simp [hct, shapeChecksOk, shapeFieldReqs, checkFieldReq,
           chunkTypeFieldOk, isOk_error]
          done)
       rename_i ct
       cases hl : (ct.length == 0 : Bool) <;>
         cases hv : isThreadStreamChunkType ct <;>
           simp [hct, hl, hv, bne, shapeChecksOk, shapeFieldReqs,
             checkFieldReq, chunkTypeFieldOk, isOk_bindU, isOk_mapU,
             assertString_isOk, assertOptionalString_isOk,
             assertOptionalNumber_isOk, isOk_pure, isOk_error])

theorem pureU_eq_ok : (pure () : Except String Unit) = Except.ok () := rfl

set_option maxHeartbeats 6400000 in
theorem parseBody_eq_ok (fields : List (String × JVal)) (ty : String)
    (v : JVal) (h : shapeChecksOk fields ty = true) :
    parseThreadStreamEventBody fields ty v = .ok v := by
  unfold parseThreadStreamEventBody
  split
  all_goals try
    (simp only [shapeChecksOk, shapeFieldReqs, List.all_cons, List.all_nil,
      Bool.and_true, Bool.and_eq_true, checkFieldReq] at h
     simp_all [assertString_eq_ok, assertNumber_eq_ok,
       assertOptionalString_eq_ok, assertOptionalNumber_eq_ok, bind_ok_unit,
       map_ok_unit, pureU_eq_ok]
     done)
  all_goals try
    (simp only [shapeChecksOk, shapeFieldReqs, List.all_cons, List.all_nil,
      Bool.and_true, Bool.and_eq_true, checkFieldReq] at h
     (cases hct : getField fields "chunkType" with
      | none => simp [hct, chunkTypeFieldOk] at h
      | some w =>
        rw [hct] at h
        cases w <;> try (simp [chunkTypeFieldOk] at h; done)
        rename_i ct
        simp [chunkTypeFieldOk, bne] at h
        simp_all [hct, assertString_eq_ok, assertOptionalString_eq_ok,
          assertOptionalNumber_eq_ok, bind_ok_unit, map_ok_unit,
          pureU_eq_ok])
     done)

theorem parse_isOk_eq_wellFormed (v : JVal) :
    (parseThreadStreamEvent v).isOk = wellFormedThreadStreamEvent v := by
  unfold parseThreadStreamEvent wellFormedThreadStreamEvent
  cases v <;> try rfl
  rename_i fields
  simp only [asObjectFields]
  cases hty : getField fields "type" with
  | none => simp [hty, isOk_error]
  | some w =>
    cases w <;> simp only [hty] <;> try rfl
    rename_i ty
    cases hlen : (ty.length == 0 : Bool) with
    | true => simp [hlen, bne, isOk_error]
    | false =>
      simp [hlen, bne, isOk_bindU, assertString_isOk, parseBody_isOk]

theorem parse_ok_of_wellFormed (v : JVal)
    (h : wellFormedThreadStreamEvent v = true) :
    parseThreadStreamEvent v = .ok v := by
  unfold wellFormedThreadStreamEvent at h
  unfold parseThreadStreamEvent
  cases v <;> try (simp [asObjectFields, getField] at h)
  rename_i fields
  simp only [asObjectFields]
  cases hty : getField fields "type" with
  | none =>
    rw [hty] at h
    simp at h
  | some w =>
    rw [hty] at h
    cases w <;> try (simp at h; done)
    rename_i ty
    simp only [Bool.and_eq_true, bne] at h
    obtain ⟨h1, h2, h3⟩ := h
    have hlen : (ty.length == 0) = false := by
      cases hq : (ty.length == 0 : Bool)
      · rfl
      · rw [hq] at h1
        exact absurd h1 (by simp)
    simp only [hty, hlen]
    rw [assertString_eq_ok _ _ h2, bind_ok_unit]
    exact parseBody_eq_ok fields ty (JVal.obj fields) h3

/-- **C9.** `parseThreadStreamEvent` dispatches on the required `type`
string against the closed set of known event shapes: it succeeds exactly on
records whose matched shape's required/optional field checks all pass
(raising whenever a required field is missing or ill-typed and on any
unknown `type`, as the two concrete conjuncts illustrate with errors naming
the offending field resp. the unknown type), and for well-formed records it
returns the record itself as the typed event. -/
theorem parseThreadStreamEvent_spec :
    (∀ v, (parseThreadStreamEvent v).isOk = wellFormedThreadStreamEvent v) ∧
    (∀ v, wellFormedThreadStreamEvent v = true →
      parseThreadStreamEvent v = .ok v) ∧
    parseThreadStreamEvent (JVal.obj [("type", .str "context.created"),
      ("at", .str "t1"), ("threadId", .str "th"), ("status", .str "open")]) =
      .error "Invalid context.created.contextId: expected non-empty string." ∧
    parseThreadStreamEvent (JVal.obj [("type", .str "mystery.event"),
      ("at", .str "t1")]) =
      .error "Unsupported thread stream event type: mystery.event" :=
  ⟨parse_isOk_eq_wellFormed, parse_ok_of_wellFormed, rfl, rfl⟩

/-- **C9 witness.** The theorem applied at a concrete well-formed
`thread.idle` record. -/
theorem parseThreadStreamEvent_spec_witness :
    parseThreadStreamEvent (JVal.obj [("type", .str "thread.idle"),
      ("at", .str "t"), ("threadId", .str "th"), ("status", .str "idle")]) =
      .ok (JVal.obj [("type", .str "thread.idle"), ("at", .str "t"),
        ("threadId", .str "th"), ("status", .str "idle")]) :=
  parseThreadStreamEvent_spec.2.1 _ rfl

/-- A parsed timeline whose second event tags the execution transition
`completed -> failed`, which the Transition Contract forbids. -/
def illegalExecutionTimeline : List JVal :=
  [JVal.obj [("type", .str "execution.completed"), ("at", .str "t1"),
    ("executionId", .str "e1"), ("contextId", .str "c1"),
    ("threadId", .str "th1"), ("status", .str "completed")],
   JVal.obj [("type", .str "execution.failed"), ("at", .str "t2"),
    ("executionId", .str "e1"), ("contextId", .str "c1"),
    ("threadId", .str "th1"), ("status", .str "failed")]]

/-- **C2 counterexample.** A timeline carrying the forbidden execution
transition `completed -> failed` passes `validateThreadStreamTimeline`
without any error, so the validator does not fail on an illegal
transition. -/
theorem validateThreadStreamTimeline_accepts_illegal_transition :
    canExecutionTransition "completed" "failed" = false ∧
    validateThreadStreamTimeline illegalExecutionTimeline = .ok () :=
  ⟨rfl, rfl⟩

/-- **C2 (amended).** `validateThreadStreamTimeline` applies the per-event
checker `assertThreadStreamTransitions` to each event in sequence order, but
that checker's body is a bare `return`, so validation never raises: it
returns normally on every list of parsed events, including lists containing
illegal transitions. -/
theorem validateThreadStreamTimeline_never_fails :
    ∀ events : List JVal, validateThreadStreamTimeline events = .ok () := by
  intro events
  induction events with
  | nil => rfl
  | cons e rest ih =>
    simp [validateThreadStreamTimeline, assertThreadStreamTransitions,
      bind_ok_unit, ih]

/-! ### Action execution subsystem (the `Promise.all` mapper in
`Thread.runLoop`) -/

/-- One requested action of the current iteration
(`{actionRef, actionName, input}`); `V` is the type of action input/output
values. -/
structure ActionRequest (V : Type) where
  actionRef : String
  actionName : String
  input : V

/-- A tool definition as looked up in `toolsAll[actionRequest.actionName]`:
the optional `auto` flag (absent means automatic) and the optional `execute`
function, whose exceptions are modelled as `Except.error`. -/
structure ToolDef (V : Type) where
  auto : Option Bool
  execute : Option (V → Except String V)

/-- The JavaScript value found in the `approved` field of a
`ThreadToolApprovalPayload`: the literal `true`, the literal `false`, or
anything else (a malformed payload). The source checks
`approval.approved !== true`. -/
inductive ApprovedField where
  | isTrue
  | isFalse
  | malformed
deriving DecidableEq

/-- `ThreadToolApprovalPayload` from `Thread.runLoop`, as resolved from the
winning approval source (`{approved, comment?, args?}`). -/
structure ThreadToolApprovalPayload (V : Type) where
  approved : ApprovedField
  comment : Option String
  args : Option V

/-- One element of `actionResults`
(`{actionRequest, success, output, errorText}`). -/
structure ActionResult (V : Type) where
  actionRequest : ActionRequest V
  success : Bool
  output : Option V
  errorText : Option String

/-- The rejection error text of `Thread.runLoop`: the comment is appended
when the payload exists and its `comment` is a truthy (non-empty) string. -/
def approvalErrorText {V : Type}
    (approval : Option (ThreadToolApprovalPayload V)) : String :=
  match approval with
  | some p =>
    match p.comment with
    | some c =>
      if c.length == 0 then "Action execution not approved"
      else "Action execution not approved: " ++ c
    | none => "Action execution not approved"
  | none => "Action execution not approved"

/-- The failure result synthesized when the action definition is missing or
has no `execute` function. -/
def notFoundResult {V : Type} (req : ActionRequest V) : ActionResult V :=
  { actionRequest := req, success := false, output := none,
    errorText := some ("Action \"" ++ req.actionName ++
      "\" not found or has no execute().") }

/-- The failure result for a rejected/malformed/unparseable approval. -/
def rejectionResult {V : Type} (req : ActionRequest V)
    (approval : Option (ThreadToolApprovalPayload V)) : ActionResult V :=
  { actionRequest := req, success := false, output := none,
    errorText := some (approvalErrorText approval) }

/-- The `toolDef.execute(actionInput, ...)` call: a thrown exception
propagates (to the surrounding `catch`). -/
def execCall {V : Type} (exec : V → Except String V) (input : V)
    (req : ActionRequest V) : Except String (ActionResult V) :=
  match exec input with
  | .ok output =>
    .ok { actionRequest := req, success := true, output := some output,
          errorText := none }
  | .error e => .error e

/-- The `try` body of the `Promise.all` mapper in `Thread.runLoop`: when
`toolDef.auto === false`, race the two approval sources (their resolved
winner is `approval`; an unparseable webhook body is `none`), fail without
executing unless the payload is `{approved: true}`, substitute
caller-supplied `args` for the input when present, then execute. -/
def executeActionTry {V : Type} (autoFlag : Option Bool)
    (exec : V → Except String V) (req : ActionRequest V)
    (approval : Option (ThreadToolApprovalPayload V)) :
    Except String (ActionResult V) :=
  if autoFlag == some false then
    match approval with
    | none => .ok (rejectionResult req none)
    | some p =>
      if p.approved != ApprovedField.isTrue then
        .ok (rejectionResult req (some p))
      else
        let actionInput := match p.args with
          | some a => a
          | none => req.input
        execCall exec actionInput req
  else
    execCall exec req.input req

/-- The whole `Promise.all` mapper of `Thread.runLoop` for one requested
action: missing/non-executable definitions synthesize a failure result
immediately, and the `catch` converts any exception of the `try` body into a
`{success: false, errorText}` result. -/
def executeActionRequest {V : Type} (toolDef : Option (ToolDef V))
    (req : ActionRequest V)
    (approval : Option (ThreadToolApprovalPayload V)) :
    Except String (ActionResult V) :=
  match toolDef with
  | none => .ok (notFoundResult req)
  | some d =>
    match d.execute with
    | none => .ok (notFoundResult req)
    | some exec =>
      match executeActionTry d.auto exec req approval with
      | .ok r => .ok r
      | .error e =>
        .ok { actionRequest := req, success := false, output := none,
              errorText := some e }

/-- **C4.** Action execution never lets an exception escape to the loop:
every run of the mapper returns a result; a missing or non-executable
definition synthesizes the not-found failure result immediately; and an
exception thrown by the action's own `execute` is converted into
`{success: false, errorText}` rather than propagated. -/
theorem action_execution_never_throws :
    ∀ (V : Type) (toolDef : Option (ToolDef V)) (req : ActionRequest V)
      (approval : Option (ThreadToolApprovalPayload V)),
      (∃ r, executeActionRequest toolDef req approval = .ok r) ∧
      (toolDef = none →
        executeActionRequest toolDef req approval = .ok (notFoundResult req)) ∧
      (∀ d, toolDef = some d → d.execute = none →
        executeActionRequest toolDef req approval = .ok (notFoundResult req)) ∧
      (∀ d exec e, toolDef = some d → d.execute = some exec →
        ¬d.auto = some false → exec req.input = .error e →
        executeActionRequest toolDef req approval =
          .ok { actionRequest := req, success := false, output := none,
                errorText := some e }) := by
  intro V toolDef req approval
  refine ⟨?_, ?_, ?_, ?_⟩
  · cases toolDef with
    | none => exact ⟨_, rfl⟩
    | some d =>
      cases hde : d.execute with
      | none =>
        exact ⟨notFoundResult req, by simp [executeActionRequest, hde]⟩
      | some exec =>
        cases htry : executeActionTry d.auto exec req approval with
        | ok r => exact ⟨r, by simp [executeActionRequest, hde, htry]⟩
        | error e =>
          exact ⟨⟨req, false, none, some e⟩,
            by simp [executeActionRequest, hde, htry]⟩
  · intro h
    subst h
    rfl
  · intro d h hde
    subst h
    simp [executeActionRequest, hde]
  · intro d exec e h hde hauto hexec
    subst h
    simp [executeActionRequest, hde, executeActionTry, execCall, hauto, hexec]

/-- **C4 witness.** The theorem applied to a request whose action is
missing, and to an auto action whose `execute` throws `"boom"`. -/
theorem action_execution_never_throws_witness :
    executeActionRequest (V := String) none ⟨"r1", "missing", "x"⟩ none =
      .ok (notFoundResult ⟨"r1", "missing", "x"⟩) ∧
    executeActionRequest (V := String)
      (some ⟨none, some (fun _ => .error "boom")⟩) ⟨"r1", "t", "x"⟩ none =
      .ok ⟨⟨"r1", "t", "x"⟩, false, none, some "boom"⟩ :=
  ⟨(action_execution_never_throws String none ⟨"r1", "missing", "x"⟩
      none).2.1 rfl,
    (action_execution_never_throws String
      (some ⟨none, some (fun _ => .error "boom")⟩) ⟨"r1", "t", "x"⟩
      none).2.2.2 ⟨none, some (fun _ => .error "boom")⟩
      (fun _ => .error "boom") "boom" rfl rfl (by simp) rfl⟩

/-- **C5.** For an action flagged `auto: false`: an unparseable winning
payload, a rejection, or any payload whose `approved` field is not the
literal `true` produces the failure result whose error text includes any
truthy rejection comment, without executing the action (the result is
independent of `execute`); a `{approved: true}` payload executes the action
— with the caller-supplied `args` replacing the originally requested input
when present, and with the original input otherwise — under the same
exception-to-result conversion as the auto path. -/
theorem approval_gating_spec :
    ∀ (V : Type) (d : ToolDef V) (exec : V → Except String V)
      (req : ActionRequest V),
      d.auto = some false → d.execute = some exec →
      (executeActionRequest (some d) req none =
        .ok (rejectionResult req none)) ∧
      (∀ p, p.approved ≠ ApprovedField.isTrue →
        executeActionRequest (some d) req (some p) =
          .ok (rejectionResult req (some p))) ∧
      (∀ (c : String) (af : ApprovedField) (args : Option V), c.length ≠ 0 →
        approvalErrorText (V := V) (some ⟨af, some c, args⟩) =
          "Action execution not approved: " ++ c) ∧
      (∀ p a, p.approved = ApprovedField.isTrue → p.args = some a →
        (∀ o, exec a = .ok o →
          executeActionRequest (some d) req (some p) =
            .ok ⟨req, true, some o, none⟩) ∧
        (∀ e, exec a = .error e →
          executeActionRequest (some d) req (some p) =
            .ok ⟨req, false, none, some e⟩)) ∧
      (∀ p, p.approved = ApprovedField.isTrue → p.args = none →
        (∀ o, exec req.input = .ok o →
          executeActionRequest (some d) req (some p) =
            .ok ⟨req, true, some o, none⟩) ∧
        (∀ e, exec req.input = .error e →
          executeActionRequest (some d) req (some p) =
            .ok ⟨req, false, none, some e⟩)) := by
  intro V d exec req hauto hde
  refine ⟨?_, ?_, ?_, ?_, ?_⟩
  · simp [executeActionRequest, hde, executeActionTry, hauto]
  · intro p hp
    simp [executeActionRequest, hde, executeActionTry, hauto, bne, hp]
  · intro c af args hc
    simp [approvalErrorText, hc]
  · intro p a hap harg
    constructor
    · intro o ho
      simp [executeActionRequest, hde, executeActionTry, hauto, bne, hap,
        harg, execCall, ho]
    · intro e he
      simp [executeActionRequest, hde, executeActionTry, hauto, bne, hap,
        harg, execCall, he]
  · intro p hap harg
    constructor
    · intro o ho
      simp [executeActionRequest, hde, executeActionTry, hauto, bne, hap,
        harg, execCall, ho]
    · intro e he
      simp [executeActionRequest, hde, executeActionTry, hauto, bne, hap,
        harg, execCall, he]

/-- **C5 witness.** The theorem applied to a gated action: a rejection with
comment `"no"` synthesizes the commented failure without executing, and an
approval carrying `args := "x"` executes with the substituted input. -/
theorem approval_gating_spec_witness :
    executeActionRequest (V := String)
      (some ⟨some false, some (fun s => .ok ("ran:" ++ s))⟩) ⟨"r1", "t", "in"⟩
      (some ⟨ApprovedField.isFalse, some "no", none⟩) =
      .ok ⟨⟨"r1", "t", "in"⟩, false, none,
        some "Action execution not approved: no"⟩ ∧
    executeActionRequest (V := String)
      (some ⟨some false, some (fun s => .ok ("ran:" ++ s))⟩) ⟨"r1", "t", "in"⟩
      (some ⟨ApprovedField.isTrue, none, some "x"⟩) =
      .ok ⟨⟨"r1", "t", "in"⟩, true, some "ran:x", none⟩ :=
  ⟨((approval_gating_spec String ⟨some false, some (fun s => .ok ("ran:" ++ s))⟩
      (fun s => .ok ("ran:" ++ s)) ⟨"r1", "t", "in"⟩ rfl rfl).2.1
      ⟨ApprovedField.isFalse, some "no", none⟩ (by decide)),
    (((approval_gating_spec String ⟨some false, some (fun s => .ok ("ran:" ++ s))⟩
      (fun s => .ok ("ran:" ++ s)) ⟨"r1", "t", "in"⟩ rfl rfl).2.2.2.1
      ⟨ApprovedField.isTrue, none, some "x"⟩ "x" rfl rfl).1 "ran:x" rfl)⟩

/-! ### Loop Controller (`Thread.runLoop`), as a per-iteration state machine

The loop is modelled over an abstract part type `α`: the per-iteration
reactor fragment, requested actions, `onEnd` hook result and continuation
decision are an `IterPlan`, the merge of action results into parts is an
abstract function (the loop never inspects part contents), and the
store-mutating calls on the Reaction Item and the Execution are recorded as
a trace of `StoreOp`s. -/

/-- The environment-supplied outcomes of one iteration of `Thread.runLoop`:
the reactor fragment's parts, the requested actions, the `callOnEnd` result
(`true` by default) and the `shouldContinue` decision. -/
structure IterPlan (α : Type) where
  fragmentParts : List α
  actionRequests : List String
  onEndFinalize : Bool
  continueLoop : Bool

/-- A store write performed by `Thread.runLoop` on the Reaction Item or the
Execution: `itemCreate` is `saveReactionItem`, `itemAppend` is the
`updateItem` of the append branch, `itemSetPending` is the `updateItem`
re-persisting the merged item as `pending` when the loop continues,
`itemComplete` is the `updateItem` that marks it `completed`, and
`execComplete` is `completeExecution`. -/
inductive StoreOp (α : Type) where
  | itemCreate (parts : List α) (status : String)
  | itemAppend (parts : List α) (status : String)
  | itemSetPending (parts : List α)
  | itemComplete
  | execComplete (status : String)

/-- The `for (let iter = 0; iter < maxIterations; iter++)` body of
`Thread.runLoop`, by remaining fuel: create-or-append the single Reaction
Item with the iteration's fragment parts (`status: pending`); finalize when
no actions were requested and the `onEnd` hook agrees; otherwise execute
actions, merge their results into the parts, ask the continuation policy,
and either re-persist the item as `pending` and loop or mark item and
execution `completed` and return. The first component is `true` iff a
terminal branch returned before the fuel ran out. -/
def runIters {α : Type} (plan : Nat → IterPlan α)
    (merge : List α → Nat → List α) :
    Nat → Nat → Option (List α) → Bool × List (StoreOp α)
  | _, 0, _ => (false, [])
  | iter, fuel + 1, reaction =>
    let p := plan iter
    let parts0 := match reaction with
      | none => p.fragmentParts
      | some ps => ps ++ p.fragmentParts
    let createOps := match reaction with
      | none => [StoreOp.itemCreate parts0 "pending"]
      | some _ => [StoreOp.itemAppend parts0 "pending"]
    if p.actionRequests.isEmpty && p.onEndFinalize then
      (true, createOps ++ [StoreOp.itemComplete, StoreOp.execComplete "completed"])
    else
      let merged := if p.actionRequests.isEmpty then parts0
        else merge parts0 iter
      if p.continueLoop then
        let r := runIters plan merge (iter + 1) fuel (some merged)
        (r.1, createOps ++ StoreOp.itemSetPending merged :: r.2)
      else
        (true, createOps ++ [StoreOp.itemComplete, StoreOp.execComplete "completed"])

/-- `Thread.runLoop`'s outer control flow: run the iterations; if the loop
exhausts `maxIterations` without a terminal branch, throw
`Thread: maxIterations reached (<maxIterations>) without completion`, with
the catch block best-effort marking the Execution failed (a failing cleanup
write is swallowed — `cleanupFails` — and the original error is re-raised
either way). -/
def runLoop {α : Type} (plan : Nat → IterPlan α)
    (merge : List α → Nat → List α) (maxIterations : Nat)
    (cleanupFails : Bool) : Except String Unit × List (StoreOp α) :=
  let r := runIters plan merge 0 maxIterations none
  if r.1 then
    (.ok (), r.2)
  else
    (.error s!"Thread: maxIterations reached ({maxIterations}) without completion",
     r.2 ++ if cleanupFails then [] else [StoreOp.execComplete "failed"])

/-- The item-directed writes of a trace (everything but `completeExecution`
calls). -/
def isItemOp {α : Type} : StoreOp α → Bool
  | .execComplete _ => false
  | _ => true

/-- Restrict a trace to its Reaction-Item writes. -/
def itemOps {α : Type} (t : List (StoreOp α)) : List (StoreOp α) :=
  t.filter isItemOp

theorem runIters_never_finishes {α : Type} (plan : Nat → IterPlan α)
    (merge : List α → Nat → List α) :
    ∀ (fuel iter : Nat) (reaction : Option (List α)),
      (∀ i, iter ≤ i → i < iter + fuel →
        ¬((plan i).actionRequests.isEmpty = true ∧
          (plan i).onEndFinalize = true) ∧ (plan i).continueLoop = true) →
      (runIters plan merge iter fuel reaction).1 = false ∧
      StoreOp.execComplete (α := α) "completed" ∉
        (runIters plan merge iter fuel reaction).2 := by
  intro fuel
  induction fuel with
  | zero =>
    intro iter reaction h
    simp [runIters]
  | succ n ih =>
    intro iter reaction h
    obtain ⟨hni, hcont⟩ := h iter (Nat.le_refl _) (by omega)
    have hcond : ((plan iter).actionRequests.isEmpty &&
        (plan iter).onEndFinalize) = false := by
      cases hA : (plan iter).actionRequests.isEmpty <;>
        cases hB : (plan iter).onEndFinalize <;> simp_all
    have ihx := fun r => ih (iter + 1) r
      (fun i h1 h2 => h i (by omega) (by omega))
    cases reaction with
    | none =>
      simp [runIters, hcond, hcont]
      exact ⟨(ihx _).1, (ihx _).2⟩
    | some ps =>
      simp [runIters, hcond, hcont]
      exact ⟨(ihx _).1, (ihx _).2⟩

/-- **C3.** When the continuation decision is to continue on every one of
`maxIterations` consecutive iterations (the terminal branches are never
reached), the loop raises the fatal
`Thread: maxIterations reached (<maxIterations>) without completion` error,
the Execution is never marked `completed` — it is marked `failed` when the
best-effort failure bookkeeping write succeeds — and the original budget
error is re-raised to the caller in either case. -/
theorem react_budget_exhaustion_fails :
    ∀ (α : Type) (plan : Nat → IterPlan α) (merge : List α → Nat → List α)
      (maxIterations : Nat) (cleanupFails : Bool),
      (∀ i, i < maxIterations →
        ¬((plan i).actionRequests.isEmpty = true ∧
          (plan i).onEndFinalize = true) ∧ (plan i).continueLoop = true) →
      (runLoop plan merge maxIterations cleanupFails).1 =
        .error
          s!"Thread: maxIterations reached ({maxIterations}) without completion" ∧
      StoreOp.execComplete (α := α) "completed" ∉
        (runLoop plan merge maxIterations cleanupFails).2 ∧
      (cleanupFails = false →
        StoreOp.execComplete (α := α) "failed" ∈
          (runLoop plan merge maxIterations cleanupFails).2) := by
  intro α plan merge maxIterations cleanupFails h
  have hrun := runIters_never_finishes plan merge maxIterations 0 none
    (fun i h1 h2 => h i (by omega))
  unfold runLoop
  simp [hrun.1]
  refine ⟨hrun.2, ?_⟩
  intro hcf
  subst hcf
  simp

/-- **C3 witness.** The theorem applied to a two-iteration budget with a
plan that always requests an action and always continues. -/
theorem react_budget_exhaustion_fails_witness :
    (runLoop (α := String) (fun _ => ⟨["frag"], ["act"], true, true⟩)
      (fun ps _ => ps) 2 false).1 =
      .error s!"Thread: maxIterations reached ({2}) without completion" ∧
    StoreOp.execComplete (α := String) "failed" ∈
      (runLoop (α := String) (fun _ => ⟨["frag"], ["act"], true, true⟩)
        (fun ps _ => ps) 2 false).2 :=
  ⟨(react_budget_exhaustion_fails String
      (fun _ => ⟨["frag"], ["act"], true, true⟩) (fun ps _ => ps) 2 false
      (by decide)).1,
    (react_budget_exhaustion_fails String
      (fun _ => ⟨["frag"], ["act"], true, true⟩) (fun ps _ => ps) 2 false
      (by decide)).2.2 rfl⟩

theorem runIters_success_itemOps {α : Type} (plan : Nat → IterPlan α)
    (merge : List α → Nat → List α) :
    ∀ (fuel iter : Nat) (reaction : Option (List α)),
      (runIters plan merge iter fuel reaction).1 = true →
      ∃ mid,
        itemOps (runIters plan merge iter fuel reaction).2 =
          (match reaction with
           | none => StoreOp.itemCreate (plan iter).fragmentParts "pending"
           | some ps =>
             StoreOp.itemAppend (ps ++ (plan iter).fragmentParts) "pending")
            :: (mid ++ [StoreOp.itemComplete]) ∧
        ∀ op ∈ mid,
          (∃ qs, op = StoreOp.itemAppend qs "pending") ∨
          (∃ qs, op = StoreOp.itemSetPending qs) := by
  intro fuel
  induction fuel with
  | zero =>
    intro iter reaction h
    simp [runIters] at h
  | succ n ih =>
    intro iter reaction h
    cases hcond : ((plan iter).actionRequests.isEmpty &&
        (plan iter).onEndFinalize) with
    | true =>
      refine ⟨[], ?_, by simp⟩
      cases reaction <;>
        simp [runIters, hcond, itemOps, isItemOp]
    | false =>
      cases hcont : (plan iter).continueLoop with
      | false =>
        refine ⟨[], ?_, by simp⟩
        cases reaction <;>
          simp [runIters, hcond, hcont, itemOps, isItemOp]
      | true =>
        cases reaction with
        | none =>
          simp only [runIters, hcond, hcont] at h
          simp at h
          obtain ⟨mid', hm1, hm2⟩ := ih (iter + 1) _ h
          refine ⟨StoreOp.itemSetPending
              (if (plan iter).actionRequests.isEmpty then
                (plan iter).fragmentParts
               else merge (plan iter).fragmentParts iter) ::
            StoreOp.itemAppend
              ((if (plan iter).actionRequests.isEmpty then
                  (plan iter).fragmentParts
                else merge (plan iter).fragmentParts iter) ++
                (plan (iter + 1)).fragmentParts) "pending" :: mid', ?_, ?_⟩
          · simp only [itemOps] at hm1
            simp [runIters, hcond, hcont, itemOps, isItemOp, hm1]
          · intro op hop
            rcases List.mem_cons.mp hop with hEq | hop2
            · exact Or.inr ⟨_, hEq⟩
            · rcases List.mem_cons.mp hop2 with hEq2 | hop3
              · exact Or.inl ⟨_, hEq2⟩
              · exact hm2 op hop3
        | some ps =>
          simp only [runIters, hcond, hcont] at h
          simp at h
          obtain ⟨mid', hm1, hm2⟩ := ih (iter + 1) _ h
          refine ⟨StoreOp.itemSetPending
              (if (plan iter).actionRequests.isEmpty then
                ps ++ (plan iter).fragmentParts
               else merge (ps ++ (plan iter).fragmentParts) iter) ::
            StoreOp.itemAppend
              ((if (plan iter).actionRequests.isEmpty then
                  ps ++ (plan iter).fragmentParts
                else merge (ps ++ (plan iter).fragmentParts) iter) ++
                (plan (iter + 1)).fragmentParts) "pending" :: mid', ?_, ?_⟩
          · simp only [itemOps] at hm1
            simp [runIters, hcond, hcont, itemOps, isItemOp, hm1]
          · intro op hop
            rcases List.mem_cons.mp hop with hEq | hop2
            · exact Or.inr ⟨_, hEq⟩
            · rcases List.mem_cons.mp hop2 with hEq2 | hop3
              · exact Or.inl ⟨_, hEq2⟩
              · exact hm2 op hop3

/-- **C8.** On every normally-terminating turn the loop maintains exactly
one Reaction Item per Execution: the first item write creates it with the
first iteration's fragment parts and status `pending`; every intermediate
item write either appends a later fragment's parts with status `pending` or
re-persists the merged item as `pending`; and the item is marked `completed`
exactly once, as the last item write, on the terminal branch. -/
theorem single_reaction_item_per_execution :
    ∀ (α : Type) (plan : Nat → IterPlan α) (merge : List α → Nat → List α)
      (maxIterations : Nat) (cleanupFails : Bool),
      (runLoop plan merge maxIterations cleanupFails).1 = .ok () →
      ∃ mid : List (StoreOp α),
        itemOps (runLoop plan merge maxIterations cleanupFails).2 =
          StoreOp.itemCreate (plan 0).fragmentParts "pending" ::
            (mid ++ [StoreOp.itemComplete]) ∧
        ∀ op ∈ mid,
          (∃ qs, op = StoreOp.itemAppend qs "pending") ∨
          (∃ qs, op = StoreOp.itemSetPending qs) := by
  intro α plan merge maxIterations cleanupFails h
  unfold runLoop at h ⊢
  cases hr : (runIters plan merge 0 maxIterations none).1 with
  | false => simp [hr] at h
  | true =>
    obtain ⟨mid, h1, h2⟩ :=
      runIters_success_itemOps plan merge maxIterations 0 none hr
    refine ⟨mid, ?_, h2⟩
    simp only [hr, if_true]
    exact h1

/-- **C8 witness.** The theorem applied to a two-iteration turn: iteration 0
requests an action and continues, iteration 1 requests none and
finalizes. -/
theorem single_reaction_item_per_execution_witness :
    ∃ mid : List (StoreOp String),
      itemOps (runLoop (α := String)
          (fun i => if i = 0 then ⟨["f0"], ["act"], true, true⟩
            else ⟨["f1"], [], true, true⟩) (fun ps _ => ps) 3 false).2 =
        StoreOp.itemCreate ["f0"] "pending" ::
          (mid ++ [StoreOp.itemComplete]) ∧
      ∀ op ∈ mid,
        (∃ qs, op = StoreOp.itemAppend qs "pending") ∨
        (∃ qs, op = StoreOp.itemSetPending qs) :=
  single_reaction_item_per_execution String
    (fun i => if i = 0 then ⟨["f0"], ["act"], true, true⟩
      else ⟨["f1"], [], true, true⟩) (fun ps _ => ps) 3 false rfl

end Ekairos
